import Mathlib

/-!
Shallow embedding of the debugger control engine of `src/python_debugger.py`:
the breakpoint registry (`_BreakpointInfo`, `_BreakpointManager`), the stepping
state machine (`_StateManager`), the per-event stop decision
(`PyDebugger.trace_dispatch`), the resume commands (`do_next`, `do_step`,
`do_continue`, `do_finish`, `do_rununtil`), the stack-navigation commands
(`do_up_stack`, `do_down_stack`) and the AST symbolic-location finder
(`_FunctionFinder`).

Python dictionaries are embedded as association lists with replace-on-insert
semantics (`dictLookup` / `dictInsert`).  Breakpoint records are mutated in
place in Python and shared between the by-file and the by-id index, so the
manager is embedded with an arena (`store`): both indices hold arena indices,
which models the aliasing exactly.  External expression evaluation (the
Python `eval` of a condition string against the frame scopes, with errors
reported and treated as false) is abstracted as an oracle `String → Bool`
passed to every hit check.
-/

/-! ## Dictionaries (Python `dict` on a flat key) -/

def dictLookup {α β : Type} [DecidableEq α] : List (α × β) → α → Option β
  | [], _ => none
  | (k, v) :: rest, key => if k = key then some v else dictLookup rest key

def dictInsert {α β : Type} [DecidableEq α] : List (α × β) → α → β → List (α × β)
  | [], key, val => [(key, val)]
  | (k, v) :: rest, key, val =>
    if k = key then (key, val) :: rest else (k, v) :: dictInsert rest key val

/-! ## `_BreakpointInfo` -/

structure BreakpointInfo where
  lineno : Int
  file_abs : String
  condition_str : Option String
  initial_ignore_count : Int
  current_ignore_left : Int
  hit_count : Int
  enabled : Bool
deriving DecidableEq, Repr

/-- `_BreakpointInfo.should_stop`.  `evalCond` is the external evaluation of a
condition string against the frame scopes; a raising evaluation is reported
and treated as false, which the oracle already folds in.  Python truthiness of
`condition_str` makes an empty condition string behave as no condition. -/
def should_stop (bp : BreakpointInfo) (evalCond : String → Bool) :
    Bool × BreakpointInfo :=
  if bp.enabled = false then (false, bp)
  else
    let bp1 := { bp with hit_count := bp.hit_count + 1 }
    if bp1.current_ignore_left > 0 then
      (false, { bp1 with current_ignore_left := bp1.current_ignore_left - 1 })
    else
      match bp1.condition_str with
      | some c => if c == "" then (true, bp1) else (evalCond c, bp1)
      | none => (true, bp1)

/-! ## `_BreakpointManager` (registry state and the operations the claims use) -/

structure BreakpointManager where
  store : List BreakpointInfo
  breakpoints_by_file : List ((String × Int) × Nat)
  next_bp_id : Int
  breakpoints_by_id : List (Int × Nat)
deriving DecidableEq, Repr

def BreakpointManager.init : BreakpointManager :=
  { store := [], breakpoints_by_file := [], next_bp_id := 1, breakpoints_by_id := [] }

/-- `_BreakpointManager.add_breakpoint`: stores the fresh record under
`(file, line)` (replacing any earlier mapping at that key) and under the next
id (always a fresh key). -/
def add_breakpoint (bm : BreakpointManager) (file_abs : String) (lineno : Int)
    (condition_str : Option String) (initial_ignore_count : Int) :
    Int × BreakpointManager :=
  let bp : BreakpointInfo :=
    { lineno := lineno, file_abs := file_abs, condition_str := condition_str,
      initial_ignore_count := initial_ignore_count,
      current_ignore_left := initial_ignore_count, hit_count := 0, enabled := true }
  let bpRef := bm.store.length
  let bp_id := bm.next_bp_id
  (bp_id,
    { store := bm.store ++ [bp],
      breakpoints_by_file := dictInsert bm.breakpoints_by_file (file_abs, lineno) bpRef,
      next_bp_id := bp_id + 1,
      breakpoints_by_id := dictInsert bm.breakpoints_by_id bp_id bpRef })

/-- `_BreakpointManager.check_breakpoint`: looks the event location up in the
by-file index and, when a record is there, runs its `should_stop` (mutating the
shared record in the arena).  Returns the record reference on a stop. -/
def check_breakpoint (bm : BreakpointManager) (file_abs : String) (lineno : Int)
    (evalCond : String → Bool) : Option Nat × BreakpointManager :=
  match dictLookup bm.breakpoints_by_file (file_abs, lineno) with
  | none => (none, bm)
  | some bpRef =>
    match bm.store.get? bpRef with
    | none => (none, bm)
    | some bp =>
      let res := should_stop bp evalCond
      let bm1 := { bm with store := bm.store.set bpRef res.2 }
      if res.1 then (some bpRef, bm1) else (none, bm1)

/-! ## `_StateManager` -/

structure StateManager where
  request_stop_at_next_suitable_event : Bool
  step_into : Bool
  step_over : Bool
  step_over_target_depth : Int
  step_out : Bool
  step_out_target_depth : Int
  run_until_line_info : Option (String × Int)
deriving DecidableEq, Repr

/-- `_StateManager.__init__` (the initial state requests a stop). -/
def StateManager.init : StateManager :=
  { request_stop_at_next_suitable_event := true, step_into := false,
    step_over := false, step_over_target_depth := -1,
    step_out := false, step_out_target_depth := -1,
    run_until_line_info := none }

def reset_stepping_flags (sm : StateManager) : StateManager :=
  { sm with step_into := false, step_over := false, step_out := false }

def configure_for_run (sm : StateManager) : StateManager :=
  { reset_stepping_flags sm with
    request_stop_at_next_suitable_event := false, run_until_line_info := none }

def configure_for_step_into (sm : StateManager) : StateManager :=
  { sm with
    request_stop_at_next_suitable_event := true, step_into := true,
    step_over := false, step_out := false, run_until_line_info := none }

def configure_for_step_over (sm : StateManager) (depth : Int) : StateManager :=
  { sm with
    request_stop_at_next_suitable_event := true, step_over := true,
    step_into := false, step_out := false, step_over_target_depth := depth,
    run_until_line_info := none }

def configure_for_step_out (sm : StateManager) (depth : Int) : StateManager :=
  { sm with
    request_stop_at_next_suitable_event := true, step_out := true,
    step_into := false, step_over := false, step_out_target_depth := depth,
    run_until_line_info := none }

def configure_for_run_until (sm : StateManager) (file : String) (line : Int) :
    StateManager :=
  { reset_stepping_flags sm with
    request_stop_at_next_suitable_event := true,
    run_until_line_info := some (file, line) }

/-! ## Trace events and the dispatch decision (`PyDebugger.trace_dispatch`) -/

inductive Event where
  | call
  | line
  | ret
  | exc
deriving DecidableEq, Repr

inductive Reason where
  | initialEntry
  | stepInto
  | rununtil
  | step
  | next
  | finish
  | firstLine
  | exceptionStop
  | breakpointHit
deriving DecidableEq, Repr

/-- The event data `trace_dispatch` reads from the frame: its (absolute) file,
its current line, and its call depth (`_get_frame_depth`, the number of frames
on the caller chain). -/
structure Frame where
  file : String
  lineno : Int
  depth : Int
deriving DecidableEq, Repr

structure DispatchResult where
  stop : Bool
  reason : Option Reason
  sm : StateManager
  bm : BreakpointManager
deriving DecidableEq, Repr

/-- The stop decision of `PyDebugger.trace_dispatch` up to (and including) the
breakpoint fallback check: consumes the must-stop flag, analyses the event
against the stepping state, and consults the breakpoint registry only when no
stop was already decided. -/
def trace_dispatch_decision (sm0 : StateManager) (bm0 : BreakpointManager)
    (frm : Frame) (event : Event) (evalCond : String → Bool) :
    Bool × Option Reason × StateManager × BreakpointManager :=
  let stop_now0 := sm0.request_stop_at_next_suitable_event
  let sm1 : StateManager := { sm0 with request_stop_at_next_suitable_event := false }
  let reason0 : Option Reason := if stop_now0 then some Reason.initialEntry else none
  let afterEvent : Bool × Option Reason × StateManager :=
    match event with
    | Event.call =>
      if sm1.step_into then (true, some Reason.stepInto, sm1)
      else if sm1.step_over || sm1.step_out then (false, reason0, sm1)
      else (stop_now0, reason0, sm1)
    | Event.line =>
      match sm1.run_until_line_info with
      | some target =>
        if frm.file == target.1 && frm.lineno == target.2 then
          (true, some Reason.rununtil, { sm1 with run_until_line_info := none })
        else (stop_now0, reason0, sm1)
      | none =>
        if sm1.step_into then (true, some Reason.step, sm1)
        else if sm1.step_over && frm.depth ≤ sm1.step_over_target_depth then
          (true, some Reason.next, sm1)
        else if sm1.step_out && frm.depth ≤ sm1.step_out_target_depth then
          (true, some Reason.finish, sm1)
        else if stop_now0 && reason0 == some Reason.initialEntry then
          (stop_now0, some Reason.firstLine, sm1)
        else (stop_now0, reason0, sm1)
    | Event.exc => (true, some Reason.exceptionStop, sm1)
    | Event.ret => (stop_now0, reason0, sm1)
  if afterEvent.1 then (afterEvent.1, afterEvent.2.1, afterEvent.2.2, bm0)
  else
    let bpRes := check_breakpoint bm0 frm.file frm.lineno evalCond
    match bpRes.1 with
    | some _ => (true, some Reason.breakpointHit, afterEvent.2.2, bpRes.2)
    | none => (false, afterEvent.2.1, afterEvent.2.2, bpRes.2)

/-- `PyDebugger.trace_dispatch`: the decision above followed by the on-stop
cleanup that resets the one-shot stepping flags right before the command loop
is entered.  The returned `sm` is the stepping state at the moment the
operator is prompted (on a stop) or carried to the next event (otherwise). -/
def trace_dispatch (sm0 : StateManager) (bm0 : BreakpointManager) (frm : Frame)
    (event : Event) (evalCond : String → Bool) : DispatchResult :=
  let r := trace_dispatch_decision sm0 bm0 frm event evalCond
  { stop := r.1, reason := r.2.1,
    sm :=
      if r.1 && (r.2.2.1.step_into || r.2.2.1.step_over || r.2.2.1.step_out) then
        reset_stepping_flags r.2.2.1
      else r.2.2.1,
    bm := r.2.2.2 }

/-- Index (0-based) and reason of the first stopping event of a trace, driving
`trace_dispatch` over the events in order and threading its state. -/
def firstStop (evalCond : String → Bool) :
    StateManager → BreakpointManager → List (Frame × Event) →
    Option (Nat × Option Reason)
  | _, _, [] => none
  | sm, bm, (f, ev) :: rest =>
    let r := trace_dispatch sm bm f ev evalCond
    if r.stop then some (0, r.reason)
    else
      match firstStop evalCond r.sm r.bm rest with
      | some p => some (p.1 + 1, p.2)
      | none => none

/-! ## Resume commands (each returns `True` to leave the command loop) -/

/-- `do_next`: step over, keyed off the depth of the suspended frame. -/
def do_next (sm : StateManager) (exec_frame_depth : Int) : StateManager :=
  configure_for_step_over sm exec_frame_depth

/-- `do_step`. -/
def do_step (sm : StateManager) : StateManager :=
  configure_for_step_into sm

/-- `do_continue`. -/
def do_continue (sm : StateManager) : StateManager :=
  configure_for_run sm

/-- `do_finish`: step out, keyed off the depth of the caller
(`_get_frame_depth(self.execution_frame.f_back)`); the command is refused when
the suspended frame has no caller. -/
def do_finish (sm : StateManager) (caller_depth : Int) : StateManager :=
  configure_for_step_out sm caller_depth

/-- `do_rununtil`: run until a line event at the given line of the suspended
frame's (absolute) file. -/
def do_rununtil (sm : StateManager) (file_abs : String) (ln : Int) : StateManager :=
  configure_for_run_until sm file_abs ln

/-- The stepping state at an operator prompt reached by the initial entry stop
of a fresh session: the must-stop flag has been consumed by the dispatch of the
entry event and nothing else was ever set. -/
def promptState : StateManager :=
  { request_stop_at_next_suitable_event := false, step_into := false,
    step_over := false, step_over_target_depth := -1,
    step_out := false, step_out_target_depth := -1,
    run_until_line_info := none }

/-! ## Stack navigation (`do_up_stack` / `do_down_stack`)

Only the captured-snapshot length, the inspection index and the parsed count
matter to the cursor move; the returned `Bool` records whether the cursor
moved (`false` = the boundary or no-stack message was printed and the cursor
left untouched). -/

structure StackNav where
  stack_len : Nat
  idx : Int
deriving DecidableEq, Repr

def do_up_stack (s : StackNav) (count : Int) : StackNav × Bool :=
  if s.stack_len = 0 then (s, false)
  else
    let n_idx := s.idx + count
    if 0 ≤ n_idx ∧ n_idx < (s.stack_len : Int) then ({ s with idx := n_idx }, true)
    else (s, false)

def do_down_stack (s : StackNav) (count : Int) : StackNav × Bool :=
  if s.stack_len = 0 then (s, false)
  else
    let n_idx := s.idx - count
    if 0 ≤ n_idx ∧ n_idx < (s.stack_len : Int) then ({ s with idx := n_idx }, true)
    else (s, false)

/-! ## AST symbolic-location resolution (`_FunctionFinder`)

A source outline is a list of nested declarations.  `visitList` is the
visitor run over the children of a node, threading `target_lineno` (`acc`)
and the current nesting path; `visitDecl` is `visit_FunctionDef` /
`visit_ClassDef` (async functions are dispatched to `visit_FunctionDef` and
are covered by `Decl.func`).  `optTruthy` mirrors Python truthiness of
`self.target_lineno` in the descend guard. -/

inductive Decl where
  | func (name : String) (lineno : Int) (body : List Decl)
  | cls (name : String) (lineno : Int) (body : List Decl)

def optTruthy : Option Int → Bool
  | none => false
  | some n => !(n == 0)

mutual

def visitDecl (parts path : List String) (acc : Option Int) : Decl → Option Int
  | Decl.func name ln body =>
    let path1 := path ++ [name]
    let acc1 := if path1.length == parts.length && path1 == parts then some ln else acc
    if !(optTruthy acc1) && path1.length < parts.length
        && parts.take path1.length == path1 then
      visitList parts path1 acc1 body
    else acc1
  | Decl.cls name _ body =>
    let path1 := path ++ [name]
    if path1.length ≤ parts.length && parts.take path1.length == path1 then
      visitList parts path1 acc body
    else acc

def visitList (parts path : List String) (acc : Option Int) : List Decl → Option Int
  | [] => acc
  | d :: ds => visitList parts path (visitDecl parts path acc d) ds

end

/-- `_find_func_lineno_using_ast` on a parsed outline: run the finder over the
top-level declarations with an empty nesting path and no target yet. -/
def find_func_lineno (parts : List String) (tree : List Decl) : Option Int :=
  visitList parts [] none tree

/-! ## Concrete inputs used by the claim theorems -/

/-- The result of dispatching the event right after an `until 42` command: a
line event of the same file at line 43 (not the target), at depth 3. -/
def untilDispatch : DispatchResult :=
  trace_dispatch (do_rununtil promptState "f.py" 42) BreakpointManager.init
    ⟨"f.py", 43, 3⟩ Event.line (fun _ => false)

/-- The result of dispatching the event right after a `next` command issued at
depth 2 on a line holding a return statement: a return event at depth 2. -/
def nextReturnDispatch : DispatchResult :=
  trace_dispatch (do_next promptState 2) BreakpointManager.init
    ⟨"f.py", 12, 2⟩ Event.ret (fun _ => false)

/-- The oracle for the condition string of the spec scenario: the evaluation
of `x > 3` in a scope where the local `x` holds the given value. -/
def evalCondWithX (x : Int) : String → Bool :=
  fun c => if c == "x > 3" then decide (x > 3) else false

/-- The breakpoint of the spec scenario: condition `x > 3`, ignore count 0. -/
def bpLine10 : BreakpointInfo :=
  { lineno := 10, file_abs := "t.py", condition_str := some "x > 3",
    initial_ignore_count := 0, current_ignore_left := 0, hit_count := 0,
    enabled := true }

/-- Iterated breakpoint hits: `should_stop` once per element of `evals`,
threading the mutated record, collecting the stop decisions in order. -/
def runHits : BreakpointInfo → List (String → Bool) → List Bool × BreakpointInfo
  | bp, [] => ([], bp)
  | bp, e :: es =>
    let r := should_stop bp e
    let rest := runHits r.2 es
    (r.1 :: rest.1, rest.2)

/-- A fresh breakpoint with an ignore budget of 2 and no condition. -/
def bpIgnore2 : BreakpointInfo :=
  { lineno := 7, file_abs := "t.py", condition_str := none,
    initial_ignore_count := 2, current_ignore_left := 2, hit_count := 0,
    enabled := true }

/-- The registry after two adds at the same location (t.py, line 10). -/
def bmTwice : BreakpointManager :=
  (add_breakpoint (add_breakpoint BreakpointManager.init "t.py" 10 none 0).2
    "t.py" 10 none 0).2

/-- A source outline with a top-level function `b` (line 1) and a class `A`
(line 3) holding a nested function `b` (line 5). -/
def declTreeAB : List Decl :=
  [Decl.func "b" 1 [], Decl.cls "A" 3 [Decl.func "b" 5 []]]

/-- A source outline with only a top-level function `b` (line 1). -/
def declTreeTop : List Decl :=
  [Decl.func "b" 1 []]

/-! All function declarations of an outline with their full dotted paths and
starting lines (the reference enumeration the finder is checked against). -/

mutual

def funcPathsDecl (path : List String) : Decl → List (List String × Int)
  | Decl.func name ln body => (path ++ [name], ln) :: funcPathsList (path ++ [name]) body
  | Decl.cls name _ body => funcPathsList (path ++ [name]) body

def funcPathsList (path : List String) : List Decl → List (List String × Int)
  | [] => []
  | d :: ds => funcPathsDecl path d ++ funcPathsList path ds

end

/-! ## Helper lemmas -/

theorem dictLookup_dictInsert_self {α β : Type} [DecidableEq α]
    (l : List (α × β)) (k : α) (v : β) :
    dictLookup (dictInsert l k v) k = some v := by
  induction l with
  | nil => simp [dictInsert, dictLookup]
  | cons kv rest ih =>
    obtain ⟨k1, v1⟩ := kv
    by_cases h : k1 = k
    · simp [dictInsert, h, dictLookup]
    · simp [dictInsert, h, dictLookup, ih]

theorem dictLookup_dictInsert_of_ne {α β : Type} [DecidableEq α]
    (l : List (α × β)) (k1 k2 : α) (v : β) (h : k1 ≠ k2) :
    dictLookup (dictInsert l k1 v) k2 = dictLookup l k2 := by
  induction l with
  | nil => simp [dictInsert, dictLookup, h]
  | cons kv rest ih =>
    obtain ⟨ka, va⟩ := kv
    by_cases hk : ka = k1
    · subst hk; simp [dictInsert, dictLookup, h]
    · simp [dictInsert, hk, dictLookup, ih]

theorem decision_sm_request_false (sm0 : StateManager) (bm0 : BreakpointManager)
    (frm : Frame) (ev : Event) (ce : String → Bool) :
    (trace_dispatch_decision sm0 bm0 frm ev ce).2.2.1.request_stop_at_next_suitable_event
      = false := by
  unfold trace_dispatch_decision
  cases ev <;> dsimp only <;> (repeat' split) <;> rfl

theorem dispatch_sm_request_false (sm0 : StateManager) (bm0 : BreakpointManager)
    (frm : Frame) (ev : Event) (ce : String → Bool) :
    (trace_dispatch sm0 bm0 frm ev ce).sm.request_stop_at_next_suitable_event
      = false := by
  unfold trace_dispatch
  dsimp only
  split
  · dsimp only [reset_stepping_flags]
    exact decision_sm_request_false sm0 bm0 frm ev ce
  · exact decision_sm_request_false sm0 bm0 frm ev ce

/-! ## Claim theorems -/

/-- C1 (code bug witness at the failing input): a finish command issued while
suspended at depth 2 targets the caller depth 1, yet the very next trace
event, a line event at depth 2 in the same frame, already stops (reason
First line), because the resume command re-armed the must-stop flag; the
qualifying line event at depth 1 sits unreached at index 2 of the trace. -/
theorem c1_finish_stops_before_return :
    firstStop (fun _ => false) (do_finish promptState 1) BreakpointManager.init
      [(⟨"f.py", 10, 2⟩, Event.line), (⟨"f.py", 10, 2⟩, Event.ret),
       (⟨"f.py", 20, 1⟩, Event.line)]
      = some (0, some Reason.firstLine) := by decide

/-- C2 (code bug witness at the failing input): after `until 42`, the next
line event at line 43 (not the target) already stops with reason Initial
entry, because the resume command re-armed the must-stop flag, and the
RunUntil target is left set instead of being cleared; the matching line event
at line 42 sits unreached at index 1 of the trace. -/
theorem c2_until_stops_at_next_event :
    firstStop (fun _ => false) (do_rununtil promptState "f.py" 42)
      BreakpointManager.init
      [(⟨"f.py", 43, 3⟩, Event.line), (⟨"f.py", 42, 3⟩, Event.line)]
      = some (0, some Reason.initialEntry) ∧
    untilDispatch.stop = true ∧
    untilDispatch.sm.run_until_line_info = some ("f.py", 42) := by decide

/-- C3 (code bug witness at the failing input): a next command issued at
depth 2 on a line holding a return statement is followed by a return event at
depth 2, and the dispatcher stops right there (reason Initial entry) through
the re-armed must-stop flag; the first line event of depth at most 2 sits
unreached at index 1 of the trace, so the next stop is not on a line event. -/
theorem c3_next_stops_on_return_event :
    firstStop (fun _ => false) (do_next promptState 2) BreakpointManager.init
      [(⟨"f.py", 12, 2⟩, Event.ret), (⟨"f.py", 30, 1⟩, Event.line)]
      = some (0, some Reason.initialEntry) ∧
    nextReturnDispatch.stop = true ∧
    nextReturnDispatch.reason = some Reason.initialEntry := by decide

/-- C4 counterexample: resume commands issued at a prompt reached after the
first stop leave the must-stop flag set, refuting that no resume command
issued after the first stop leaves the session with the flag set. -/
theorem c4_resume_rearms_flag :
    (configure_for_step_into promptState).request_stop_at_next_suitable_event
      = true ∧
    (configure_for_step_out promptState 1).request_stop_at_next_suitable_event
      = true := by decide

/-- C4 (amended): the must-stop flag is set at session construction and is
consumed by every event dispatch (hence exactly once at the first stop); the
continue command clears it, but every other resume command (step, next,
finish, until) sets it again, so the flag is not reserved to the initial
entry stop. -/
theorem c4_flag_lifecycle :
    StateManager.init.request_stop_at_next_suitable_event = true ∧
    (∀ (sm : StateManager) (bm : BreakpointManager) (frm : Frame) (ev : Event)
      (ce : String → Bool),
      (trace_dispatch sm bm frm ev ce).sm.request_stop_at_next_suitable_event
        = false) ∧
    (∀ sm : StateManager,
      (configure_for_run sm).request_stop_at_next_suitable_event = false) ∧
    (∀ sm : StateManager,
      (configure_for_step_into sm).request_stop_at_next_suitable_event = true) ∧
    (∀ (sm : StateManager) (d : Int),
      (configure_for_step_over sm d).request_stop_at_next_suitable_event = true) ∧
    (∀ (sm : StateManager) (d : Int),
      (configure_for_step_out sm d).request_stop_at_next_suitable_event = true) ∧
    (∀ (sm : StateManager) (f : String) (l : Int),
      (configure_for_run_until sm f l).request_stop_at_next_suitable_event = true) :=
  ⟨rfl, dispatch_sm_request_false, fun _ => rfl, fun _ => rfl, fun _ _ => rfl,
    fun _ _ => rfl, fun _ _ _ => rfl⟩

/-- C9: moving the inspection cursor (up or down, any count) to a position
outside the snapshot bounds leaves the cursor unchanged and reports the move
as failed (the boundary message), and repeating the over-shooting move is
again the identical no-op: the cursor is never silently clamped. -/
theorem c9_cursor_boundary (s : StackNav) (c : Int) :
    (¬ (0 ≤ s.idx + c ∧ s.idx + c < (s.stack_len : Int)) →
      do_up_stack s c = (s, false) ∧
      do_up_stack (do_up_stack s c).1 c = (s, false)) ∧
    (¬ (0 ≤ s.idx - c ∧ s.idx - c < (s.stack_len : Int)) →
      do_down_stack s c = (s, false) ∧
      do_down_stack (do_down_stack s c).1 c = (s, false)) := by
  constructor
  · intro h
    have e : do_up_stack s c = (s, false) := by
      unfold do_up_stack
      split
      · rfl
      · dsimp only
        exact if_neg h
    exact ⟨e, by rw [e]; exact e⟩
  · intro h
    have e : do_down_stack s c = (s, false) := by
      unfold do_down_stack
      split
      · rfl
      · dsimp only
        exact if_neg h
    exact ⟨e, by rw [e]; exact e⟩

/-- C10: whenever the dispatcher decides to stop, the stepping state handed to
the command loop has all three one-shot stepping flags cleared; stepping modes
are re-armed only by a later resume command. -/
theorem c10_stepping_flags_cleared_at_stop (sm0 : StateManager)
    (bm0 : BreakpointManager) (frm : Frame) (ev : Event) (ce : String → Bool)
    (h : (trace_dispatch sm0 bm0 frm ev ce).stop = true) :
    (trace_dispatch sm0 bm0 frm ev ce).sm.step_into = false ∧
    (trace_dispatch sm0 bm0 frm ev ce).sm.step_over = false ∧
    (trace_dispatch sm0 bm0 frm ev ce).sm.step_out = false := by
  unfold trace_dispatch at h ⊢
  dsimp only at h ⊢
  rw [h]
  generalize (trace_dispatch_decision sm0 bm0 frm ev ce).2.2.1 = s
  obtain ⟨r1, s2, s3, s4, s5, s6, s7⟩ := s
  cases s2 <;> cases s3 <;> cases s5 <;>
    simp [reset_stepping_flags]

/-- C10 witness: the entry event of a fresh session stops, and the prompt
state has the three stepping flags cleared. -/
theorem c10_stepping_flags_witness :
    (trace_dispatch StateManager.init BreakpointManager.init ⟨"f.py", 10, 1⟩
        Event.line (fun _ => false)).sm.step_into = false ∧
    (trace_dispatch StateManager.init BreakpointManager.init ⟨"f.py", 10, 1⟩
        Event.line (fun _ => false)).sm.step_over = false ∧
    (trace_dispatch StateManager.init BreakpointManager.init ⟨"f.py", 10, 1⟩
        Event.line (fun _ => false)).sm.step_out = false :=
  c10_stepping_flags_cleared_at_stop StateManager.init BreakpointManager.init
    ⟨"f.py", 10, 1⟩ Event.line (fun _ => false) (by decide)

/-! ## Breakpoint hit lemmas -/

theorem should_stop_ignore_pos (bp : BreakpointInfo) (e : String → Bool)
    (hen : bp.enabled = true) (hpos : 0 < bp.current_ignore_left) :
    should_stop bp e =
      (false, { bp with
          hit_count := bp.hit_count + 1,
          current_ignore_left := bp.current_ignore_left - 1 }) := by
  unfold should_stop
  rw [if_neg (by simp [hen])]
  dsimp only
  rw [if_pos hpos]

theorem should_stop_after_budget (bp : BreakpointInfo) (e : String → Bool)
    (hen : bp.enabled = true) (hz : bp.current_ignore_left = 0) :
    (should_stop bp e).1 =
      (match bp.condition_str with
        | some c => if c == "" then true else e c
        | none => true) ∧
    (should_stop bp e).2 = { bp with hit_count := bp.hit_count + 1 } := by
  unfold should_stop
  rw [if_neg (by simp [hen])]
  dsimp only
  rw [if_neg (by simp [hz])]
  cases hc : bp.condition_str with
  | none => simp [hc]
  | some c =>
    by_cases hce : (c == "") = true <;> simp [hc, hce]

theorem runHits_budget (es : List (String → Bool)) (bp : BreakpointInfo)
    (hen : bp.enabled = true) (hig : bp.current_ignore_left = es.length) :
    (runHits bp es).1 = List.replicate es.length false ∧
    (runHits bp es).2.enabled = true ∧
    (runHits bp es).2.current_ignore_left = 0 ∧
    (runHits bp es).2.condition_str = bp.condition_str ∧
    (runHits bp es).2.hit_count = bp.hit_count + es.length := by
  induction es generalizing bp with
  | nil =>
    refine ⟨rfl, hen, ?_, rfl, ?_⟩
    · simpa using hig
    · simp [runHits]
  | cons e es ih =>
    have hpos : 0 < bp.current_ignore_left := by
      rw [hig]
      exact_mod_cast Nat.succ_pos es.length
    have hstep := should_stop_ignore_pos bp e hen hpos
    have h1 : runHits bp (e :: es) =
        ((should_stop bp e).1 :: (runHits (should_stop bp e).2 es).1,
          (runHits (should_stop bp e).2 es).2) := rfl
    rw [hstep] at h1
    dsimp only at h1
    set bp1 : BreakpointInfo :=
      { bp with
        hit_count := bp.hit_count + 1,
        current_ignore_left := bp.current_ignore_left - 1 } with hbp1
    have hb1en : bp1.enabled = true := hen
    have hb1ig : bp1.current_ignore_left = es.length := by
      show bp.current_ignore_left - 1 = (es.length : Int)
      rw [hig]
      simp only [List.length_cons]
      push_cast
      ring
    obtain ⟨ih1, ih2, ih3, ih4, ih5⟩ := ih bp1 hb1en hb1ig
    rw [h1]
    refine ⟨?_, ih2, ih3, ih4, ?_⟩
    · simp [ih1, List.replicate_succ]
    · rw [ih5]
      show bp.hit_count + 1 + (es.length : Int) = bp.hit_count + ((e :: es).length : Int)
      simp only [List.length_cons]
      push_cast
      ring

/-- C5: an enabled breakpoint whose remaining ignore budget equals the length
of a positive run of hits reports no stop on any of those hits (whatever each
condition evaluation would say), ends the run with budget 0, and the very next
hit evaluates the condition (or stops outright when no condition is set). -/
theorem c5_ignore_budget (bp : BreakpointInfo) (es : List (String → Bool))
    (hen : bp.enabled = true) (hig : bp.current_ignore_left = es.length)
    (hpos : 0 < es.length) :
    (runHits bp es).1 = List.replicate es.length false ∧
    (runHits bp es).2.current_ignore_left = 0 ∧
    (∀ e : String → Bool,
      (should_stop (runHits bp es).2 e).1 =
        (match bp.condition_str with
          | some c => if c == "" then true else e c
          | none => true)) := by
  obtain ⟨h1, h2, h3, h4, h5⟩ := runHits_budget es bp hen hig
  refine ⟨h1, h3, fun e => ?_⟩
  have hres := (should_stop_after_budget (runHits bp es).2 e h2 h3).1
  rw [h4] at hres
  exact hres

/-- C5 witness: a breakpoint with ignore budget 2 skips its first two hits,
ends with budget 0, and its third hit stops (no condition set). -/
theorem c5_ignore_budget_witness :
    (runHits bpIgnore2 [fun _ => true, fun _ => true]).1 = List.replicate 2 false ∧
    (runHits bpIgnore2 [fun _ => true, fun _ => true]).2.current_ignore_left = 0 ∧
    (∀ e : String → Bool,
      (should_stop (runHits bpIgnore2 [fun _ => true, fun _ => true]).2 e).1 = true) :=
  c5_ignore_budget bpIgnore2 [fun _ => true, fun _ => true] rfl rfl (by decide)

/-- C6: evaluating a hit on an enabled breakpoint increments its hit counter
even when the hit does not stop; in the spec scenario (condition x greater
than 3, ignore count 0, reached first with x=2 and then with x=5) the first
hit does not stop, the second does, and the counter reads 2. -/
theorem c6_hit_counter :
    (∀ (bp : BreakpointInfo) (e : String → Bool), bp.enabled = true →
      ((should_stop bp e).2).hit_count = bp.hit_count + 1) ∧
    (should_stop bpLine10 (evalCondWithX 2)).1 = false ∧
    ((should_stop bpLine10 (evalCondWithX 2)).2).hit_count = 1 ∧
    (should_stop ((should_stop bpLine10 (evalCondWithX 2)).2) (evalCondWithX 5)).1 = true ∧
    ((should_stop ((should_stop bpLine10 (evalCondWithX 2)).2) (evalCondWithX 5)).2).hit_count = 2 := by
  refine ⟨fun bp e hen => ?_, by decide, by decide, by decide, by decide⟩
  unfold should_stop
  rw [if_neg (by simp [hen])]
  dsimp only
  (repeat' split) <;> rfl

/-- C7 counterexample: after a second add at the same (file, line), both ids
1 and 2 are present in the id index, yet the registry did not reject the
duplicate: it assigned the fresh id (the id index grew) and replaced the
by-file mapping with the second record (arena reference 1).  This refutes the
claim that both ids may coexist in the id index only if the registry rejects
duplicates. -/
theorem c7_both_ids_coexist_with_replacement :
    dictLookup bmTwice.breakpoints_by_id 1 = some 0 ∧
    dictLookup bmTwice.breakpoints_by_id 2 = some 1 ∧
    dictLookup bmTwice.breakpoints_by_file ("t.py", 10) = some 1 ∧
    bmTwice.breakpoints_by_id ≠
      (add_breakpoint BreakpointManager.init "t.py" 10 none 0).2.breakpoints_by_id := by
  decide

/-- C7 (amended): at most one breakpoint per (file, line) is consulted for
matching — a second add at the same location replaces the by-file mapping with
the new record — while the id index keeps both ids, the superseded record
staying reachable under its (stale) id: the registry replaces, it does not
reject. -/
theorem c7_location_replacement (bm : BreakpointManager) (file : String)
    (line : Int) (c1 c2 : Option String) (g1 g2 : Int) :
    dictLookup
        (add_breakpoint (add_breakpoint bm file line c1 g1).2 file line c2 g2).2.breakpoints_by_file
        (file, line) = some (bm.store.length + 1) ∧
    dictLookup
        (add_breakpoint (add_breakpoint bm file line c1 g1).2 file line c2 g2).2.breakpoints_by_id
        (add_breakpoint bm file line c1 g1).1 = some bm.store.length ∧
    dictLookup
        (add_breakpoint (add_breakpoint bm file line c1 g1).2 file line c2 g2).2.breakpoints_by_id
        (add_breakpoint (add_breakpoint bm file line c1 g1).2 file line c2 g2).1
      = some (bm.store.length + 1) ∧
    (add_breakpoint bm file line c1 g1).1
      ≠ (add_breakpoint (add_breakpoint bm file line c1 g1).2 file line c2 g2).1 := by
  dsimp only [add_breakpoint]
  refine ⟨?_, ?_, ?_, ?_⟩
  · rw [dictLookup_dictInsert_self]
    simp
  · rw [dictLookup_dictInsert_of_ne _ _ _ _ (by omega), dictLookup_dictInsert_self]
  · rw [dictLookup_dictInsert_self]
    simp
  · omega

/-! ## Finder soundness -/

mutual

theorem visitDecl_sound (parts path : List String) (acc : Option Int) (d : Decl)
    (l : Int) (h : visitDecl parts path acc d = some l) :
    acc = some l ∨ (parts, l) ∈ funcPathsDecl path d := by
  cases d with
  | func name ln body =>
    simp only [visitDecl] at h
    split at h
    · rename_i hm
      have hpq : path ++ [name] = parts := eq_of_beq (Bool.and_eq_true_iff.mp hm).2
      split at h
      · rcases visitList_sound parts (path ++ [name]) (some ln) body l h with h2 | h2
        · right
          have hl : l = ln := (Option.some.inj h2).symm
          simp only [funcPathsDecl]
          rw [hl, ← hpq]
          exact List.mem_cons_self _ _
        · right
          simp only [funcPathsDecl]
          exact List.mem_cons_of_mem _ h2
      · right
        have hl : l = ln := (Option.some.inj h).symm
        simp only [funcPathsDecl]
        rw [hl, ← hpq]
        exact List.mem_cons_self _ _
    · split at h
      · rcases visitList_sound parts (path ++ [name]) acc body l h with h2 | h2
        · exact Or.inl h2
        · right
          simp only [funcPathsDecl]
          exact List.mem_cons_of_mem _ h2
      · exact Or.inl h
  | cls name ln body =>
    simp only [visitDecl] at h
    split at h
    · rcases visitList_sound parts (path ++ [name]) acc body l h with h2 | h2
      · exact Or.inl h2
      · right
        simpa only [funcPathsDecl] using h2
    · exact Or.inl h

theorem visitList_sound (parts path : List String) (acc : Option Int)
    (ds : List Decl) (l : Int) (h : visitList parts path acc ds = some l) :
    acc = some l ∨ (parts, l) ∈ funcPathsList path ds := by
  cases ds with
  | nil => exact Or.inl h
  | cons d ds =>
    simp only [visitList] at h
    rcases visitList_sound parts path _ ds l h with h2 | h2
    · rcases visitDecl_sound parts path acc d l h2 with h3 | h3
      · exact Or.inl h3
      · right
        simp only [funcPathsList]
        exact List.mem_append_left _ h3
    · right
      simp only [funcPathsList]
      exact List.mem_append_right _ h2

end

/-- C8: any line the symbolic finder returns is the starting line of a
function declaration whose full dotted nesting path equals exactly the
requested dotted path, so resolving A.b can never match a top-level b outside
A; on the concrete outlines, A.b resolves to the nested declaration (line 5)
even with a top-level b present, a plain b resolves to the top-level one
(line 1), and A.b is not found when only a top-level b exists. -/
theorem c8_symbolic_resolution :
    (∀ (parts : List String) (tree : List Decl) (l : Int),
      find_func_lineno parts tree = some l → (parts, l) ∈ funcPathsList [] tree) ∧
    find_func_lineno ["A", "b"] declTreeAB = some 5 ∧
    find_func_lineno ["b"] declTreeAB = some 1 ∧
    find_func_lineno ["A", "b"] declTreeTop = none := by
  refine ⟨fun parts tree l h => ?_, by decide, by decide, by decide⟩
  unfold find_func_lineno at h
  rcases visitList_sound parts [] none tree l h with h2 | h2
  · exact Option.noConfusion h2
  · exact h2
